import Mathlib

/-!
Verification of the UDP file-transfer system (RTED project).

The C++ sources are shallowly embedded: bytes are `Nat` values (with a
`< 256` bound stated as a hypothesis where it matters), `std::vector<uint8_t>`
is `List Nat`, and the 32-bit unsigned accumulation of `std::accumulate`
wraps explicitly modulo `2 ^ 32`.
-/

namespace RTED

/-- Capacity of the fixed packet payload buffer (`PACKET_SIZE` in
`udp_file_transfer.hpp`). -/
def PACKET_SIZE : Nat := 512

/-- Modulus of C++ `unsigned int` / `uint32_t` arithmetic. -/
def UINT32_MOD : Nat := 2 ^ 32

/-- Embedding of `calculate_checksum` (udp_file_transfer.cpp):
`std::accumulate(data.begin(), data.end(), 0u)` — a left fold adding each
byte into an unsigned 32-bit accumulator, wrapping modulo `2 ^ 32`. -/
def calculate_checksum (data : List Nat) : Nat :=
  data.foldl (fun acc b => (acc + b) % UINT32_MOD) 0

/-- Embedding of `verify_checksum` (udp_file_transfer.cpp):
`calculate_checksum(data) == checksum`. -/
def verify_checksum (data : List Nat) (checksum : Nat) : Bool :=
  calculate_checksum data == checksum

/-- Embedding of `encrypt_data` (XOR codec translation unit): every byte of
the vector is XORed with the fixed key `0xAA`. XOR of two bytes never
exceeds a byte, so no wrap is needed. -/
def encrypt_data (data : List Nat) : List Nat :=
  data.map (fun b => b ^^^ 0xAA)

/-- Embedding of `decrypt_data`: the source returns `encrypt_data(data)`,
since XOR with a fixed key is its own inverse. -/
def decrypt_data (data : List Nat) : List Nat :=
  encrypt_data data

/-! Helper lemmas about the checksum fold. -/

/-- The wrapping left fold of `calculate_checksum` equals the plain list sum
reduced modulo `2 ^ 32`. -/
theorem checksum_foldl_eq (a : Nat) (l : List Nat) :
    l.foldl (fun acc b => (acc + b) % UINT32_MOD) (a % UINT32_MOD)
      = (a + l.sum) % UINT32_MOD := by
  induction l generalizing a with
  | nil => simp
  | cons x xs ih =>
    simp only [List.foldl_cons, List.sum_cons]
    rw [Nat.mod_add_mod, ih, Nat.add_assoc]

/-- Closed form of the checksum: the byte sum modulo `2 ^ 32`. -/
theorem calculate_checksum_eq_sum (l : List Nat) :
    calculate_checksum l = l.sum % UINT32_MOD := by
  have h := checksum_foldl_eq 0 l
  simpa [calculate_checksum] using h

/-- Setting index `i` of a list exchanges the old element for the new one in
the sum: `(l.set i v).sum + l.getD i 0 = l.sum + v`. -/
theorem sum_set_add_getD (l : List Nat) (i : Nat) (v : Nat) (h : i < l.length) :
    (l.set i v).sum + l.getD i 0 = l.sum + v := by
  induction l generalizing i with
  | nil => simp at h
  | cons x xs ih =>
    cases i with
    | zero =>
      simp only [List.set_cons_zero, List.sum_cons, List.getD_cons_zero]
      omega
    | succ j =>
      have hj : j < xs.length := by simpa using h
      have hxs := ih j hj
      simp only [List.set_cons_succ, List.sum_cons, List.getD_cons_succ]
      omega

end RTED

namespace RTED

/-- C1: for every byte sequence `b` (the statement holds for every list of
naturals, byte-valued lists included, and in particular for the empty list),
`decrypt_data (encrypt_data b) = b`: the fixed-key XOR decrypt is the exact
inverse of encrypt. -/
theorem decrypt_encrypt_roundtrip (b : List Nat) :
    decrypt_data (encrypt_data b) = b := by
  have h : ∀ n : Nat, (n ^^^ 0xAA) ^^^ 0xAA = n := fun n => by
    rw [Nat.xor_assoc, Nat.xor_self, Nat.xor_zero]
  induction b with
  | nil => rfl
  | cons x xs ih =>
    simp only [decrypt_data, encrypt_data, List.map_cons] at ih ⊢
    rw [h, ih]

/-- C2: a checksum always verifies against the sequence it was computed
from; and replacing any single byte `l.get i` by a different byte value `v`
makes verification against the original checksum fail (the additive checksum
moves by `v - l.get i`, which is nonzero and too small to wrap). -/
theorem checksum_verifies_and_detects_single_byte_change
    (l : List Nat) (hl : ∀ b ∈ l, b < 256) :
    verify_checksum l (calculate_checksum l) = true ∧
    ∀ i v, i < l.length → v < 256 → v ≠ l.getD i 0 →
      verify_checksum (l.set i v) (calculate_checksum l) = false := by
  constructor
  · simp [verify_checksum]
  · intro i v hi hv hne
    have hb : l.getD i 0 < 256 := by
      rw [List.getD_eq_getElem l 0 hi]
      exact hl _ (List.getElem_mem hi)
    rw [verify_checksum, beq_eq_false_iff_ne]
    intro heq
    rw [calculate_checksum_eq_sum, calculate_checksum_eq_sum] at heq
    have hsum : (l.set i v).sum + l.getD i 0 = l.sum + v :=
      sum_set_add_getD l i v hi
    have hmod : (l.sum + v) % UINT32_MOD = (l.sum + l.getD i 0) % UINT32_MOD := by
      calc (l.sum + v) % UINT32_MOD
          = ((l.set i v).sum + l.getD i 0) % UINT32_MOD := by rw [hsum]
        _ = ((l.set i v).sum % UINT32_MOD + l.getD i 0) % UINT32_MOD := by
            rw [Nat.mod_add_mod]
        _ = (l.sum % UINT32_MOD + l.getD i 0) % UINT32_MOD := by rw [heq]
        _ = (l.sum + l.getD i 0) % UINT32_MOD := by rw [Nat.mod_add_mod]
    have hv' : v % UINT32_MOD = l.getD i 0 % UINT32_MOD :=
      Nat.ModEq.add_left_cancel' l.sum hmod
    rw [Nat.mod_eq_of_lt (lt_trans hv (by decide)),
        Nat.mod_eq_of_lt (lt_trans hb (by decide))] at hv'
    exact hne hv'

/-- C2 witness: the theorem instantiated at the byte sequence `[7, 200]`,
index 1, replacement byte 3. -/
theorem checksum_verifies_and_detects_witness :
    verify_checksum [7, 200] (calculate_checksum [7, 200]) = true ∧
    verify_checksum ([7, 200].set 1 3) (calculate_checksum [7, 200]) = false := by
  have h := checksum_verifies_and_detects_single_byte_change [7, 200] (by decide)
  exact ⟨h.1, h.2 1 3 (by decide) (by decide) (by decide)⟩

/-- C9: encryption and decryption preserve the length of the byte sequence;
consequently a plaintext that fits the fixed-capacity packet buffer
(`PACKET_SIZE = 512`) still fits after encryption. -/
theorem encrypt_decrypt_preserve_length (b : List Nat) :
    (encrypt_data b).length = b.length ∧
    (decrypt_data b).length = b.length ∧
    (b.length ≤ PACKET_SIZE → (encrypt_data b).length ≤ PACKET_SIZE) := by
  refine ⟨?_, ?_, ?_⟩ <;> simp [encrypt_data, decrypt_data]

/-- C9 witness: the theorem instantiated at the sequence `[1, 2, 3]`. -/
theorem encrypt_decrypt_preserve_length_witness :
    (encrypt_data [1, 2, 3]).length = 3 ∧
    (decrypt_data [1, 2, 3]).length = 3 ∧
    (encrypt_data [1, 2, 3]).length ≤ PACKET_SIZE := by
  have h := encrypt_decrypt_preserve_length [1, 2, 3]
  exact ⟨h.1, h.2.1, h.2.2 (by decide)⟩

/-- C10: `calculate_checksum` is a monoid homomorphism from byte-sequence
concatenation to addition modulo `2 ^ 32`: the checksum of `a ++ b` is the
wrapped sum of the two checksums, and the checksum of the empty sequence is
`0`. -/
theorem calculate_checksum_append_hom (a b : List Nat) :
    calculate_checksum (a ++ b)
      = (calculate_checksum a + calculate_checksum b) % UINT32_MOD ∧
    calculate_checksum ([] : List Nat) = 0 := by
  refine ⟨?_, rfl⟩
  rw [calculate_checksum_eq_sum, calculate_checksum_eq_sum,
      calculate_checksum_eq_sum, List.sum_append, Nat.add_mod]

end RTED

namespace RTED

/-- Operation codes (`OperationCode` in udp_file_transfer.hpp):
`RRQ = 1`, and the following values continue the enumeration. -/
def RRQ : Nat := 1

/-- Write Request operation code. -/
def WRQ : Nat := 2

/-- Delete Request operation code. -/
def DEL : Nat := 3

/-- Acknowledgment operation code. -/
def ACK : Nat := 4

/-- Error packet operation code. -/
def ERROR_PACKET : Nat := 5

/-- Embedding of `struct Packet` (udp_file_transfer.hpp): operation code,
file name (the fixed 256-byte NUL-padded field is modelled as the text it
carries), payload bytes (the valid prefix of the fixed 512-byte buffer),
checksum, and the count of valid payload bytes. -/
structure Packet where
  operationID : Nat
  filename : String
  data : List Nat
  checksum : Nat
  dataSize : Nat
  deriving DecidableEq

/-- Messages a handler emits on the socket: either a raw C-string reply
(error/success texts sent with `sendto(sockfd, error, strlen(error), ...)`)
or a full `Packet` (data/ack packets sent with `sizeof(Packet)`). -/
inductive ServerMsg where
  | text (s : String)
  | packet (p : Packet)
  deriving DecidableEq

/-- Storage root of the server (`SERVER_STORAGE_DIR` in server.cpp). -/
def SERVER_STORAGE_DIR : String := "./server_files/"

/-- Backup root of the server (`BACKUP_STORAGE_DIR` in server.cpp). -/
def BACKUP_STORAGE_DIR : String := "./backup_files/"

/-- Embedding of `generate_versioned_filename` (server.cpp): appends
`_v` and the current timestamp to the filename; the clock reading is an
explicit argument. -/
def generate_versioned_filename (filename timestamp : String) : String :=
  filename ++ "_v" ++ timestamp

/-- Association-list model of a directory tree: pairs of full file path and
byte content. Lookup finds the first entry with the given path. -/
def lookupFile (fs : List (String × List Nat)) (path : String) :
    Option (List Nat) :=
  (fs.find? (fun kv => kv.1 == path)).map (fun kv => kv.2)

/-- Creating/overwriting a file at a path (what `std::ofstream` plus the
writes amount to once the stream is closed). -/
def writeFile (fs : List (String × List Nat)) (path : String)
    (content : List Nat) : List (String × List Nat) :=
  (path, content) :: fs.eraseP (fun kv => kv.1 == path)

/-- Removing a file at a path (`remove(filePath.c_str())` on success). -/
def removeFile (fs : List (String × List Nat)) (path : String) :
    List (String × List Nat) :=
  fs.eraseP (fun kv => kv.1 == path)

/-- Embedding of the retry loop of `send_request_with_ack` (client.cpp):
each iteration sends the packet once, then waits on `select` with the fixed
`ACK_TIMEOUT`; `arrives attempt` says whether some inbound packet became
readable within that attempt's timeout window. The result is the Boolean
the function returns paired with the list of packets sent, in order; the
fuel starts at the loop bound 3. -/
def ack_wait_loop (p : Packet) (arrives : Nat → Bool) :
    Nat → Nat → Bool × List Packet
  | _, 0 => (false, [])
  | attempt, fuel + 1 =>
    if arrives attempt then (true, [p])
    else
      let r := ack_wait_loop p arrives (attempt + 1) fuel
      (r.1, p :: r.2)

/-- Embedding of `send_request_with_ack` (client.cpp): run the retry loop
from attempt 0 with the source's bound of 3 attempts. -/
def send_request_with_ack (p : Packet) (arrives : Nat → Bool) :
    Bool × List Packet :=
  ack_wait_loop p arrives 0 3

/-- The request packet built by the client's entry point
(`Packet packet = {RRQ, "example.txt", {}, 0}`). -/
def examplePacket : Packet :=
  { operationID := RRQ, filename := "example.txt", data := [],
    checksum := 0, dataSize := 0 }

/-- When no attempt ever observes an inbound packet, the loop returns
`false` after sending the packet once per remaining attempt. -/
theorem ack_wait_loop_exhausts (p : Packet) (arrives : Nat → Bool) :
    ∀ fuel attempt,
      (∀ i, attempt ≤ i → i < attempt + fuel → arrives i = false) →
      ack_wait_loop p arrives attempt fuel = (false, List.replicate fuel p) := by
  intro fuel
  induction fuel with
  | zero => intro attempt _; rfl
  | succ f ih =>
    intro attempt h
    have h0 : arrives attempt = false := h attempt le_rfl (by omega)
    rw [ack_wait_loop, h0]
    simp only [Bool.false_eq_true, if_false, List.replicate]
    rw [ih (attempt + 1) (fun i h1 h2 => h i (by omega) (by omega))]

/-- When some attempt within the remaining fuel observes an inbound packet,
the loop returns `true`. -/
theorem ack_wait_loop_acks (p : Packet) (arrives : Nat → Bool) :
    ∀ fuel attempt,
      (∃ i, attempt ≤ i ∧ i < attempt + fuel ∧ arrives i = true) →
      (ack_wait_loop p arrives attempt fuel).1 = true := by
  intro fuel
  induction fuel with
  | zero =>
    rintro attempt ⟨i, h1, h2, _⟩
    omega
  | succ f ih =>
    rintro attempt ⟨i, h1, h2, ha⟩
    rw [ack_wait_loop]
    cases h0 : arrives attempt with
    | true => simp [h0]
    | false =>
      have hne : attempt ≠ i := by
        rintro rfl
        rw [h0] at ha
        exact Bool.noConfusion ha
      simp only [Bool.false_eq_true, if_false]
      exact ih (attempt + 1) ⟨i, by omega, by omega, ha⟩

/-- C4: if no inbound packet ever arrives within the per-attempt timeout,
`send_request_with_ack` sends the identical packet exactly 3 times and then
returns failure (the function is total, so it cannot hang); if any inbound
packet arrives within the timeout on some attempt, it returns acknowledged. -/
theorem send_request_with_ack_retry_bound (p : Packet) (arrives : Nat → Bool) :
    ((∀ i, i < 3 → arrives i = false) →
      send_request_with_ack p arrives = (false, List.replicate 3 p)) ∧
    ((∃ i, i < 3 ∧ arrives i = true) →
      (send_request_with_ack p arrives).1 = true) := by
  constructor
  · intro h
    exact ack_wait_loop_exhausts p arrives 3 0 (fun i _ h2 => h i (by omega))
  · rintro ⟨i, hi, ha⟩
    exact ack_wait_loop_acks p arrives 3 0 ⟨i, by omega, by omega, ha⟩

/-- C4 witness: the theorem instantiated at the client's request packet,
first with a channel that never delivers, then with one that always
delivers. -/
theorem send_request_with_ack_retry_bound_witness :
    send_request_with_ack examplePacket (fun _ => false)
      = (false, List.replicate 3 examplePacket) ∧
    (send_request_with_ack examplePacket (fun _ => true)).1 = true :=
  ⟨(send_request_with_ack_retry_bound examplePacket (fun _ => false)).1
      (fun _ _ => rfl),
   (send_request_with_ack_retry_bound examplePacket (fun _ => true)).2
      ⟨0, by decide, rfl⟩⟩

end RTED

namespace RTED

/-- Splitting file content into the successive reads of
`while (file.read(buffer, PACKET_SIZE) || file.gcount() > 0)`: maximal
chunks of `PACKET_SIZE` bytes, the last one possibly short, none empty. -/
def chunksOfPacketSize (content : List Nat) : List (List Nat) :=
  if h : content = [] then []
  else
    content.take PACKET_SIZE :: chunksOfPacketSize (content.drop PACKET_SIZE)
termination_by content.length
decreasing_by
  simp only [List.length_drop]
  have hpos : 0 < content.length := List.length_pos.mpr h
  simp only [PACKET_SIZE]
  omega

/-- Embedding of the RRQ branch of `handle_client` (server.cpp): if the
requested path is absent from the storage root, send the single C-string
`"Error: File not found."` and log; otherwise stream one data packet per
chunk, each carrying the encrypted chunk, the checksum of the encrypted
bytes, and the plaintext chunk length, with no log entry. The cipher
(`aes_encrypt` with the session key and IV in the source) is an explicit
function argument. -/
def handle_rrq (encrypt : List Nat → List Nat)
    (fs : List (String × List Nat)) (filename : String) :
    List ServerMsg × List String :=
  match lookupFile fs (SERVER_STORAGE_DIR ++ filename) with
  | none =>
      ([ServerMsg.text "Error: File not found."],
       ["File not found: " ++ (SERVER_STORAGE_DIR ++ filename)])
  | some content =>
      ((chunksOfPacketSize content).map (fun c =>
        let encrypted := encrypt c
        ServerMsg.packet
          { operationID := ACK, filename := "", data := encrypted,
            checksum := calculate_checksum encrypted, dataSize := c.length }),
       [])

/-- C6: a Read request naming a file absent from the server's storage root
makes the server send exactly one reply, an Error response, log the
failure once, and send no data packets for that request. -/
theorem handle_rrq_missing_file_single_error
    (encrypt : List Nat → List Nat) (fs : List (String × List Nat))
    (filename : String)
    (h : lookupFile fs (SERVER_STORAGE_DIR ++ filename) = none) :
    handle_rrq encrypt fs filename =
      ([ServerMsg.text "Error: File not found."],
       ["File not found: " ++ (SERVER_STORAGE_DIR ++ filename)]) ∧
    ∀ m ∈ (handle_rrq encrypt fs filename).1, ∀ p, m ≠ ServerMsg.packet p := by
  have heq : handle_rrq encrypt fs filename =
      ([ServerMsg.text "Error: File not found."],
       ["File not found: " ++ (SERVER_STORAGE_DIR ++ filename)]) := by
    unfold handle_rrq
    rw [h]
  refine ⟨heq, ?_⟩
  rw [heq]
  rintro m hm p
  simp only [List.mem_singleton] at hm
  subst hm
  intro hcontra
  exact ServerMsg.noConfusion hcontra

/-- C6 witness: the theorem instantiated at an empty storage root, the
filename `a.txt` and the identity cipher. -/
theorem handle_rrq_missing_file_single_error_witness :
    handle_rrq (fun d => d) [] "a.txt" =
      ([ServerMsg.text "Error: File not found."],
       ["File not found: " ++ (SERVER_STORAGE_DIR ++ "a.txt")]) ∧
    ∀ m ∈ (handle_rrq (fun d => d) [] "a.txt").1,
      ∀ p, m ≠ ServerMsg.packet p :=
  handle_rrq_missing_file_single_error (fun d => d) [] "a.txt" rfl

/-- Embedding of the delete branch of `handle_client` (server.cpp): the
`remove(filePath.c_str())` call succeeds exactly when the path exists in
the directory model; on success the server replies with the C-string
`"Success: File deleted."`, on failure with
`"Error: Failed to delete file."` plus a log entry. -/
def handle_del (fs : List (String × List Nat)) (filename : String) :
    List (String × List Nat) × ServerMsg × List String :=
  let filePath := SERVER_STORAGE_DIR ++ filename
  if (lookupFile fs filePath).isSome then
    (removeFile fs filePath, ServerMsg.text "Success: File deleted.", [])
  else
    (fs, ServerMsg.text "Error: Failed to delete file.",
     ["Failed to delete file: " ++ filePath])

/-- C7: the Delete handler replies with the success status exactly when the
filesystem removal succeeds (the named path exists) and with the failure
status when it fails; deleting a nonexistent filename yields the failure
status, a log entry, and leaves the whole storage directory — hence every
other file — unchanged. -/
theorem handle_del_status (fs : List (String × List Nat)) (filename : String) :
    ((lookupFile fs (SERVER_STORAGE_DIR ++ filename)).isSome = true →
      (handle_del fs filename).2.1 = ServerMsg.text "Success: File deleted.") ∧
    (lookupFile fs (SERVER_STORAGE_DIR ++ filename) = none →
      handle_del fs filename =
        (fs, ServerMsg.text "Error: Failed to delete file.",
         ["Failed to delete file: " ++ (SERVER_STORAGE_DIR ++ filename)])) := by
  constructor
  · intro h
    unfold handle_del
    rw [if_pos h]
  · intro h
    unfold handle_del
    rw [if_neg (by rw [h]; exact Bool.false_ne_true ∘ id)]

/-- C7 witness: a storage root holding only `a.txt`; deleting `a.txt`
succeeds, deleting `b.txt` fails and leaves the directory unchanged. -/
theorem handle_del_status_witness :
    (handle_del [(SERVER_STORAGE_DIR ++ "a.txt", [1, 2])] "a.txt").2.1
      = ServerMsg.text "Success: File deleted." ∧
    handle_del [(SERVER_STORAGE_DIR ++ "a.txt", [1, 2])] "b.txt"
      = ([(SERVER_STORAGE_DIR ++ "a.txt", [1, 2])],
         ServerMsg.text "Error: Failed to delete file.",
         ["Failed to delete file: " ++ (SERVER_STORAGE_DIR ++ "b.txt")]) :=
  ⟨(handle_del_status [(SERVER_STORAGE_DIR ++ "a.txt", [1, 2])] "a.txt").1
      (by decide),
   (handle_del_status [(SERVER_STORAGE_DIR ++ "a.txt", [1, 2])] "b.txt").2
      (by decide)⟩

end RTED

namespace RTED

/-- Embedding of the body of the receive loop in the WRQ branch of
`handle_client` (server.cpp) — the same shape as the receive loop of
`send_rrq` (client.cpp): decrypt the received chunk, verify its checksum
against the checksum field of the request packet; on success append the
decrypted bytes to the open file, on failure log the mismatch and
`continue` without writing. State is the file content written so far paired
with the log. -/
def wrq_chunk_step (decrypt : List Nat → List Nat) (filename : String)
    (reqChecksum : Nat) (st : List Nat × List String) (chunk : List Nat) :
    List Nat × List String :=
  if verify_checksum (decrypt chunk) reqChecksum then
    (st.1 ++ decrypt chunk, st.2)
  else
    (st.1, st.2 ++ ["Checksum mismatch for file: " ++ filename])

/-- Embedding of the WRQ branch of `handle_client` (server.cpp): open
(create) the destination at the timestamp-versioned path inside
`SERVER_STORAGE_DIR`, run the receive loop over the incoming chunks, and
close the file. The handler returns the storage directory, the backup
directory and the log after the request; the cipher (`aes_decrypt` in the
source) and the clock reading are explicit arguments. The source performs
no further filesystem operation after the loop. -/
def handle_wrq (decrypt : List Nat → List Nat)
    (storage backup : List (String × List Nat))
    (filename timestamp : String) (reqChecksum : Nat)
    (chunks : List (List Nat)) :
    List (String × List Nat) × List (String × List Nat) × List String :=
  match chunks.foldl (wrq_chunk_step decrypt filename reqChecksum) ([], []) with
  | (content, logs) =>
      (writeFile storage
         (generate_versioned_filename (SERVER_STORAGE_DIR ++ filename) timestamp)
         content,
       backup, logs)

/-- C5 (refuted): the Write handler never relocates anything into the
backup directory — the backup directory after any completed Write request
is exactly the backup directory before it, and the finished file stays in
the server storage root under its versioned name. The second conjunct
evaluates a one-chunk Write that completes successfully: the file ends up
at `./server_files/example.txt_v20241124103000` and the (empty) backup
directory is untouched. -/
theorem handle_wrq_never_relocates_to_backup :
    (∀ (decrypt : List Nat → List Nat)
       (storage backup : List (String × List Nat))
       (filename timestamp : String) (reqChecksum : Nat)
       (chunks : List (List Nat)),
      (handle_wrq decrypt storage backup filename timestamp reqChecksum
          chunks).2.1 = backup) ∧
    handle_wrq decrypt_data [] [] "example.txt" "20241124103000" 0 [[0xAA]]
      = ([("./server_files/example.txt_v20241124103000", [0])], [], []) := by
  constructor
  · intro decrypt storage backup filename timestamp reqChecksum chunks
    unfold handle_wrq
    rfl
  · rfl

/-- Per-chunk sender/receiver integrity pipeline exactly as wired in the
code: the sender (`send_wrq`, client.cpp) encrypts the plaintext chunk and
sets the packet checksum field to `calculate_checksum` of the *encrypted*
payload; the receiver (WRQ branch of `handle_client`, server.cpp, and
likewise the receive loop of `send_rrq`, client.cpp) decrypts the
ciphertext and verifies the checksum of the *decrypted* bytes against that
field. -/
def chunk_integrity_check (plain : List Nat) : Bool :=
  verify_checksum (decrypt_data (encrypt_data plain))
    (calculate_checksum (encrypt_data plain))

/-- C3 (refuted): for the uncorrupted one-byte chunk `[0]` the ciphertext
is `[0xAA]` and the sender's checksum is `170`, but the receiver computes
the checksum of the decrypted bytes `[0]`, which is `0`, so verification
fails even though the transmission was perfect and decryption restored the
plaintext exactly. -/
theorem chunk_integrity_check_fails_uncorrupted :
    decrypt_data (encrypt_data [0]) = [0] ∧
    calculate_checksum (encrypt_data [0]) = 170 ∧
    chunk_integrity_check [0] = false := by
  refine ⟨rfl, by decide, by decide⟩

/-- C8: a received chunk whose checksum verification after decryption fails
is discarded — the file content is unchanged by that chunk, exactly one
mismatch log entry is appended, and processing continues with the remaining
chunks from the same file state. -/
theorem corrupted_chunk_discarded (decrypt : List Nat → List Nat)
    (filename : String) (reqChecksum : Nat) (st : List Nat × List String)
    (chunk : List Nat) (rest : List (List Nat))
    (h : verify_checksum (decrypt chunk) reqChecksum = false) :
    (wrq_chunk_step decrypt filename reqChecksum st chunk).1 = st.1 ∧
    (wrq_chunk_step decrypt filename reqChecksum st chunk).2
      = st.2 ++ ["Checksum mismatch for file: " ++ filename] ∧
    (chunk :: rest).foldl (wrq_chunk_step decrypt filename reqChecksum) st
      = rest.foldl (wrq_chunk_step decrypt filename reqChecksum)
          (st.1, st.2 ++ ["Checksum mismatch for file: " ++ filename]) := by
  have hstep : wrq_chunk_step decrypt filename reqChecksum st chunk
      = (st.1, st.2 ++ ["Checksum mismatch for file: " ++ filename]) := by
    unfold wrq_chunk_step
    rw [h]
    simp
  refine ⟨by rw [hstep], by rw [hstep], ?_⟩
  rw [List.foldl_cons, hstep]

/-- C8 witness: the theorem instantiated with the XOR codec at the chunk
`[0]` against the expected checksum `0` (the decrypted bytes `[0xAA]` sum
to `170`, so verification fails) starting from an empty file. -/
theorem corrupted_chunk_discarded_witness :
    (wrq_chunk_step decrypt_data "f.txt" 0 ([], []) [0]).1 = [] ∧
    (wrq_chunk_step decrypt_data "f.txt" 0 ([], []) [0]).2
      = [] ++ ["Checksum mismatch for file: " ++ "f.txt"] ∧
    ([[0]] : List (List Nat)).foldl (wrq_chunk_step decrypt_data "f.txt" 0)
        ([], [])
      = ([] : List (List Nat)).foldl (wrq_chunk_step decrypt_data "f.txt" 0)
          ([], [] ++ ["Checksum mismatch for file: " ++ "f.txt"]) :=
  corrupted_chunk_discarded decrypt_data "f.txt" 0 ([], []) [0] []
    (by decide)

end RTED
